import Mathlib

/-!
Verification of the post/comment visibility and ownership policy of the
blogicum application (django_sprint4).  The definitions below are a shallow
embedding of the request handlers in `blogicum/blog/views.py`, the forms in
`blogicum/blog/forms.py` and the field state recorded by migration
`blog/migrations/0012_auto_20250324_2348.py`.  The persistence store is
modelled as explicit lists of records; each handler becomes a function from
the store (plus the request parameters) to the resulting store and outcome.
-/

namespace Blogicum

/-- Modelled from the spec: `blog/models.py` is not among the provided
sources, so the Category record follows the spec data model (unique id,
slug, title, `is_published` flag).  Creation timestamps are omitted: no
policy decision reads them. -/
structure Category where
  id : Nat
  slug : String
  title : String
  is_published : Bool
deriving DecidableEq, Repr

/-- Modelled from the spec: Location record per the spec data model (name and
`is_published` flag).  No policy decision reads it beyond its presence. -/
structure Location where
  id : Nat
  name : String
  is_published : Bool
deriving DecidableEq, Repr

/-- Modelled from the spec: `blog/models.py` is not among the provided
sources, so the Post record follows the spec data model: owning author,
publish timestamp, `is_published` flag, OPTIONAL category reference and
optional location reference (spec section 3: "optional category reference";
section 6 schema: `category_id?`).  The category is stored here as the loaded
related record, matching the views' use of `select_related('category')`:
the policy always receives a post with its category loaded or absent.
Authors and users are identified by their numeric id; timestamps are
integers. -/
structure Post where
  id : Nat
  author : Nat
  title : String
  text : String
  pub_date : Int
  is_published : Bool
  category : Option Category
  location : Option Location
deriving DecidableEq, Repr

/-- Modelled from the spec: Comment record per the spec data model and the
section 6 schema `Comment(id, text, post_id, author_id, ...)`: owning post
reference (by id), owning author reference (by id), body text. -/
structure Comment where
  id : Nat
  post : Nat
  author : Nat
  text : String
deriving DecidableEq, Repr

/-- The requester identity attached to a request: either the anonymous
(unauthenticated) user or an authenticated user identified by id.  In
Django, `request.user` is an `AnonymousUser` for unauthenticated requests,
which never compares equal to any `User` row. -/
inductive Requester where
  | anonymous : Requester
  | user (id : Nat) : Requester
deriving DecidableEq, Repr

/-- Ownership test used throughout `views.py` (`post.author != request.user`,
`comment.author != request.user`), phrased positively.  An anonymous
requester never equals a stored author. -/
def requesterIsAuthor : Requester → Nat → Bool
  | .anonymous, _ => false
  | .user uid, a => uid == a

/-- The filter applied by `get_post_queryset(apply_filters=True)` in
`views.py` lines 80-85:
`queryset.filter(is_published=True, pub_date__lte=now(), category__is_published=True)`.
The related-field condition `category__is_published=True` is a join against
the category table: a post whose `category_id` is NULL produces no joined
row satisfying the condition, so posts without a category are dropped by
this filter.  Hence the `none` branch yields `false`. -/
def publishedFilter (p : Post) (now : Int) : Bool :=
  p.is_published && decide (p.pub_date ≤ now) &&
    (match p.category with
     | some c => c.is_published
     | none => false)

/-- Modelled from the spec: the spec's pure predicate `isPubliclyVisible`
(section 4.1): `post.is_published == true` AND (`post.category` is absent OR
`post.category.is_published == true`) AND `post.pub_date <= now`.  This is
the spec-side definition kept for comparison against the code-side
`publishedFilter`; it treats an absent category as favorable. -/
def isPubliclyVisible (p : Post) (now : Int) : Bool :=
  p.is_published &&
    (match p.category with
     | some c => c.is_published
     | none => true) &&
    decide (p.pub_date ≤ now)

/-- The home-page listing (`PostListView`): the filtered queryset.  The
`annotate(comment_count=...)` projection and the `-pub_date` ordering are
presentation concerns that do not change which posts appear, and are
omitted. -/
def homeFeed (posts : List Post) (now : Int) : List Post :=
  posts.filter (fun p => publishedFilter p now)

/-- The per-user listing (`ProfileView.get_queryset`, `views.py` lines
182-194): when the viewer is the profile owner the unfiltered queryset is
used, otherwise the public filter applies; in both cases the result is then
restricted to the owner's posts (`queryset.filter(author=profile_user)`). -/
def profileFeed (posts : List Post) (profileUser : Nat) (viewer : Requester)
    (now : Int) : List Post :=
  (if viewer = Requester.user profileUser
   then posts
   else posts.filter (fun p => publishedFilter p now)).filter
    (fun p => p.author == profileUser)

/-- The category listing (`CategoryPostListView`, `views.py` lines 141-162):
`get_category` does `get_object_or_404(Category, slug=..., is_published=True)`,
so an unpublished (or missing) category yields a not-found (`none`);
otherwise the publicly filtered queryset is restricted to posts of that
category. -/
def categoryFeed (posts : List Post) (cats : List Category) (slug : String)
    (now : Int) : Option (List Post) :=
  match cats.find? (fun c => c.slug == slug && c.is_published) with
  | none => none
  | some cat =>
      some ((posts.filter (fun p => publishedFilter p now)).filter
        (fun p =>
          match p.category with
          | some c => c.id == cat.id
          | none => false))

/-- Outcome of a detail lookup.  `error` models an uncaught exception (the
attribute access `post.category.is_published` on an absent category raises
`AttributeError`, surfacing as a server error, not an HTTP 404). -/
inductive DetailOutcome where
  | success (p : Post) : DetailOutcome
  | notFound : DetailOutcome
  | error : DetailOutcome
deriving DecidableEq, Repr

/-- `PostDetailView.get_object` (`views.py` lines 117-127):
`get_object_or_404` over the UNfiltered queryset, then
`if (post.author != request.user and (not post.is_published or
not post.category.is_published or post.pub_date > now())): raise Http404`.
Python evaluates the disjunction left to right with short-circuiting, so
`post.category.is_published` is only reached when the requester is not the
author and `post.is_published` is true; at that point an absent category
makes the attribute access raise (the `error` outcome). -/
def postDetailGetObject (posts : List Post) (postId : Nat) (r : Requester)
    (now : Int) : DetailOutcome :=
  match posts.find? (fun p => p.id == postId) with
  | none => .notFound
  | some post =>
      if requesterIsAuthor r post.author then .success post
      else if !post.is_published then .notFound
      else
        match post.category with
        | none => .error
        | some c =>
            if !c.is_published then .notFound
            else if decide (post.pub_date > now) then .notFound
            else .success post

/-- Outcome of a create/edit/delete request.  `redirectToLogin` models the
`LoginRequiredMixin` redirect, `redirectToDetail k` a redirect to the detail
page of post `k`, `redirectToProfile u` a redirect to user `u`'s profile,
`notFound` an HTTP 404, and `proceed` reaching the framework's form/delete
handling (`super().dispatch(...)`), i.e. the point past every guard. -/
inductive MutationOutcome where
  | redirectToLogin : MutationOutcome
  | redirectToDetail (postId : Nat) : MutationOutcome
  | redirectToProfile (userId : Nat) : MutationOutcome
  | notFound : MutationOutcome
  | proceed : MutationOutcome
deriving DecidableEq, Repr

/-- The field values a `PostForm` submission carries (`forms.py` lines
21-33: `title`, `text`, `pub_date`, `category`, `location`, `is_published`;
the `image` upload is omitted, no policy decision reads it).  The form's
`__init__` restriction of the category/location choices to published rows
constrains which references a submission can carry but not the stored
values, and is not needed by any claim. -/
structure PostSubmission where
  title : String
  text : String
  pub_date : Int
  category : Option Category
  location : Option Location
  is_published : Bool
deriving DecidableEq, Repr

/-- The editable fields applied to an existing post when an update reaches
the form-save stage.  `pub_date` is absent: migration 0012 gives it
`auto_now_add=True`, which makes the model field non-editable, so a save
never takes it from the submission. -/
def applyPostEdit (s : PostSubmission) (p : Post) : Post :=
  { p with
      title := s.title
      text := s.text
      category := s.category
      location := s.location
      is_published := s.is_published }

/-- `PostCreateView` (`views.py` lines 217-230).  `LoginRequiredMixin` is
first in the class's bases and no `dispatch` override exists, so an
anonymous requester is redirected to the login flow before anything else.
For an authenticated requester, `form_valid` forces `instance.author =
request.user`, the new row is saved, and `get_success_url` redirects to the
requester's profile.  The stored `pub_date` is the creation time
`creationTime`, not the submitted `s.pub_date`: migration 0012 declares
`pub_date` with `auto_now_add=True`, which stamps the field with the
current time on first save and ignores any supplied value. -/
def postCreateAttempt (posts : List Post) (r : Requester)
    (s : PostSubmission) (newId : Nat) (creationTime : Int) :
    List Post × MutationOutcome :=
  match r with
  | .anonymous => (posts, .redirectToLogin)
  | .user uid =>
      (posts ++ [{ id := newId
                   author := uid
                   title := s.title
                   text := s.text
                   pub_date := creationTime
                   is_published := s.is_published
                   category := s.category
                   location := s.location }],
       .redirectToProfile uid)

/-- `PostUpdateView` (`views.py` lines 233-254).  The class defines its own
`dispatch`, which therefore runs BEFORE `LoginRequiredMixin`'s
authentication check (the override sits on the most derived class and only
reaches the mixin through `super().dispatch`).  It loads the post with
`get_object_or_404(Post, id=post_id)` (404 when absent), then redirects any
requester who is not the author — anonymous included — to the post's detail
page.  Only the author reaches `super().dispatch`, where the mixin's login
check runs (vacuous for an author, who is a real user) and the form edit is
applied. -/
def postUpdateAttempt (posts : List Post) (postId : Nat) (r : Requester)
    (s : PostSubmission) : List Post × MutationOutcome :=
  match posts.find? (fun p => p.id == postId) with
  | none => (posts, .notFound)
  | some post =>
      if !(requesterIsAuthor r post.author) then
        (posts, .redirectToDetail postId)
      else
        match r with
        | .anonymous => (posts, .redirectToLogin)
        | .user _ =>
            ((posts.map fun p =>
                if p.id == postId then applyPostEdit s p else p),
             .proceed)

/-- `PostDeleteView` (`views.py` lines 257-277): same guard structure as
`PostUpdateView` (own `dispatch` ahead of the login mixin); a non-author is
redirected to the post's detail page, the author's delete removes the row. -/
def postDeleteAttempt (posts : List Post) (postId : Nat) (r : Requester) :
    List Post × MutationOutcome :=
  match posts.find? (fun p => p.id == postId) with
  | none => (posts, .notFound)
  | some post =>
      if !(requesterIsAuthor r post.author) then
        (posts, .redirectToDetail postId)
      else
        match r with
        | .anonymous => (posts, .redirectToLogin)
        | .user _ =>
            (posts.filter (fun p => !(p.id == postId)), .proceed)

/-- `CommentCreateView` (`views.py` lines 280-298).  `LoginRequiredMixin`
runs first (no `dispatch` override), so an anonymous requester is sent to
login.  `CommentForm` declares `fields = ['text']` (`forms.py` lines
45-53), so a submitted author or post value never enters the form; on top
of that, `form_valid` forces `instance.post` to the post named by the URL
path (404 when it does not exist) and `instance.author` to `request.user`.
The parameters `submittedAuthor` and `submittedPost` are carried to state
that the result does not depend on them.  Success redirects to the post's
detail page. -/
def commentCreateAttempt (posts : List Post) (comments : List Comment)
    (pathPostId : Nat) (r : Requester) (submittedText : String)
    (submittedAuthor : Nat) (submittedPost : Nat) (newId : Nat) :
    List Comment × MutationOutcome :=
  match r with
  | .anonymous => (comments, .redirectToLogin)
  | .user uid =>
      match posts.find? (fun p => p.id == pathPostId) with
      | none => (comments, .notFound)
      | some _ =>
          (comments ++ [{ id := newId
                          post := pathPostId
                          author := uid
                          text := submittedText }],
           .redirectToDetail pathPostId)

/-- `CommentUpdateView` (`views.py` lines 301-334).  `get_object` looks the
comment up INSIDE `Comment.objects.filter(post_id=<path post_id>)`, so a
comment addressed under a different post's path is a 404.  The class's own
`dispatch` (running before the login mixin) calls `get_object` and
redirects any non-author — anonymous included — to the detail page of the
path's post.  For the author, `form_valid` re-forces `instance.post` to the
path's post and `instance.author` to the requester and saves the new text. -/
def commentUpdateAttempt (comments : List Comment) (pathPostId : Nat)
    (commentId : Nat) (r : Requester) (newText : String) :
    List Comment × MutationOutcome :=
  match (comments.filter (fun c => c.post == pathPostId)).find?
      (fun c => c.id == commentId) with
  | none => (comments, .notFound)
  | some comment =>
      if !(requesterIsAuthor r comment.author) then
        (comments, .redirectToDetail pathPostId)
      else
        match r with
        | .anonymous => (comments, .redirectToLogin)
        | .user uid =>
            ((comments.map fun c =>
                if c.id == commentId then
                  { c with text := newText, post := pathPostId, author := uid }
                else c),
             .proceed)

/-- `CommentDeleteView` (`views.py` lines 337-364): the same `get_object`
restricted to the path's post and the same non-author redirect in its own
`dispatch`; the author's delete removes the comment row (primary keys are
unique, so removal is by id). -/
def commentDeleteAttempt (comments : List Comment) (pathPostId : Nat)
    (commentId : Nat) (r : Requester) : List Comment × MutationOutcome :=
  match (comments.filter (fun c => c.post == pathPostId)).find?
      (fun c => c.id == commentId) with
  | none => (comments, .notFound)
  | some comment =>
      if !(requesterIsAuthor r comment.author) then
        (comments, .redirectToDetail pathPostId)
      else
        match r with
        | .anonymous => (comments, .redirectToLogin)
        | .user _ =>
            (comments.filter (fun c => !(c.id == commentId)), .proceed)

/-! Concrete fixtures used by counterexamples and witnesses. -/

/-- A published category, as in the category feed fixtures. -/
def catNews : Category :=
  { id := 2, slug := "news", title := "News", is_published := true }

/-- The spec's unpublished category scenario (section 8, item 8). -/
def catTravel : Category :=
  { id := 1, slug := "travel", title := "Travel", is_published := false }

/-- A post with no category, published, past-dated: spec-visible. -/
def c1Post : Post :=
  { id := 11, author := 1, title := "t", text := "x", pub_date := 0,
    is_published := true, category := none, location := none }

/-- A category-less published post used for the detail-lookup evaluation. -/
def c2Post : Post :=
  { id := 21, author := 4, title := "t", text := "x", pub_date := 0,
    is_published := true, category := none, location := none }

/-- Owner 1's category-less published past-dated post. -/
def c3Post : Post :=
  { id := 31, author := 1, title := "t", text := "x", pub_date := 0,
    is_published := true, category := none, location := none }

/-- Owner 1's unpublished post, for the owner-sees-all witness. -/
def c3OwnPost : Post :=
  { id := 32, author := 1, title := "t", text := "x", pub_date := 0,
    is_published := false, category := none, location := none }

/-! Theorems settling the claims. -/

/-- C1, as stated by the spec: the public-visibility decision used by the
home, category and non-owner profile listings would return true for a post
with no category whose other conditions are favorable.  Refuted: `c1Post`
has no category, is published and past-dated — spec-visible — yet the
code's filter rejects it and it is absent from the home feed. -/
theorem claim_C1_counterexample :
    isPubliclyVisible c1Post 5 = true ∧
    publishedFilter c1Post 5 = false ∧
    c1Post ∉ homeFeed [c1Post] 5 := by decide

/-- C1 (amended): the public-visibility decision used by the listings
returns true iff the post is spec-visible AND its category is present; a
post with no category is never included, and home-feed membership is
exactly the filter's acceptance. -/
theorem claim_C1_amended (p : Post) (now : Int) (posts : List Post) :
    (publishedFilter p now = true ↔
      (isPubliclyVisible p now = true ∧ p.category.isSome = true)) ∧
    (p ∈ homeFeed posts now ↔ p ∈ posts ∧ publishedFilter p now = true) := by
  constructor
  · cases hc : p.category with
    | none => simp [publishedFilter, isPubliclyVisible, hc]
    | some c =>
        simp [publishedFilter, isPubliclyVisible, hc, Bool.and_eq_true]
        tauto
  · simp [homeFeed, List.mem_filter]

/-- C2: the claim says a publicly visible post's detail lookup succeeds for
every requester.  On a published, past-dated post with no category —
publicly visible per the spec's own predicate — a non-owner lookup instead
evaluates `post.category.is_published` on an absent category and raises,
surfacing as a server error rather than success or not-found. -/
theorem claim_C2_bug :
    isPubliclyVisible c2Post 5 = true ∧
    postDetailGetObject [c2Post] 21 Requester.anonymous 5
      = DetailOutcome.error := by decide

/-- C3, as stated: for a viewer other than the owner the profile feed would
be exactly the owner's publicly visible posts.  Refuted: `c3Post` belongs
to owner 1 and is spec-visible, yet an anonymous viewer's profile feed for
owner 1 omits it (the listing filter requires a present, published
category). -/
theorem claim_C3_counterexample :
    c3Post.author = 1 ∧
    isPubliclyVisible c3Post 5 = true ∧
    c3Post ∉ profileFeed [c3Post] 1 Requester.anonymous 5 := by decide

/-- C3 (amended): the profile feed contains exactly the owner's posts, with
the code's listing filter (post published AND category present and
published AND past-dated) additionally required whenever the viewer is not
the owner; the owner sees all of their posts. -/
theorem claim_C3_amended (posts : List Post) (owner : Nat)
    (viewer : Requester) (now : Int) (p : Post) :
    p ∈ profileFeed posts owner viewer now ↔
      (p ∈ posts ∧ p.author = owner ∧
        (viewer ≠ Requester.user owner → publishedFilter p now = true)) := by
  unfold profileFeed
  by_cases hv : viewer = Requester.user owner
  · simp [hv, List.mem_filter]
  · simp [hv, List.mem_filter]

/-- C3 witness: owner 1 viewing their own profile sees their unpublished
post. -/
theorem claim_C3_witness :
    c3OwnPost ∈ profileFeed [c3OwnPost] 1 (Requester.user 1) 5 :=
  (claim_C3_amended [c3OwnPost] 1 (Requester.user 1) 5 c3OwnPost).mpr
    ⟨List.mem_singleton.mpr rfl, rfl, fun h => absurd rfl h⟩

/-- Post owned by user 1, used by the mutation fixtures. -/
def c4Post : Post :=
  { id := 41, author := 1, title := "t", text := "x", pub_date := 0,
    is_published := true, category := some catNews, location := none }

/-- Comment by user 1 on post 41, used by the mutation fixtures. -/
def c4Comment : Comment := { id := 42, post := 41, author := 1, text := "c" }

/-- A generic form submission used where its contents are irrelevant. -/
def plainSubmission : PostSubmission :=
  { title := "t", text := "x", pub_date := 0, category := none,
    location := none, is_published := true }

/-- C4: a non-owner's edit or delete attempt on a post or comment leaves the
store unchanged and yields a redirect to the item's post's detail page —
not an error page, not a silent success. -/
theorem claim_C4 (posts : List Post) (comments : List Comment)
    (pid cid uid : Nat) (s : PostSubmission) (t : String)
    (post : Post) (c : Comment)
    (hp : posts.find? (fun q => q.id == pid) = some post)
    (hpa : post.author ≠ uid)
    (hc : (comments.filter (fun x => x.post == pid)).find?
      (fun x => x.id == cid) = some c)
    (hca : c.author ≠ uid) :
    postUpdateAttempt posts pid (Requester.user uid) s
      = (posts, MutationOutcome.redirectToDetail pid) ∧
    postDeleteAttempt posts pid (Requester.user uid)
      = (posts, MutationOutcome.redirectToDetail pid) ∧
    commentUpdateAttempt comments pid cid (Requester.user uid) t
      = (comments, MutationOutcome.redirectToDetail pid) ∧
    commentDeleteAttempt comments pid cid (Requester.user uid)
      = (comments, MutationOutcome.redirectToDetail pid) := by
  have hpa2 : (uid == post.author) = false := by
    simpa using Ne.symm hpa
  have hca2 : (uid == c.author) = false := by
    simpa using Ne.symm hca
  refine ⟨?_, ?_, ?_, ?_⟩ <;>
    simp [postUpdateAttempt, postDeleteAttempt, commentUpdateAttempt,
      commentDeleteAttempt, hp, hc, requesterIsAuthor, hpa2, hca2]

/-- C4 witness: user 2 attempting to edit or delete user 1's post 41 and
comment 42 changes nothing and is redirected to post 41's detail page. -/
theorem claim_C4_witness :
    postUpdateAttempt [c4Post] 41 (Requester.user 2) plainSubmission
      = ([c4Post], MutationOutcome.redirectToDetail 41) ∧
    postDeleteAttempt [c4Post] 41 (Requester.user 2)
      = ([c4Post], MutationOutcome.redirectToDetail 41) ∧
    commentUpdateAttempt [c4Comment] 41 42 (Requester.user 2) "z"
      = ([c4Comment], MutationOutcome.redirectToDetail 41) ∧
    commentDeleteAttempt [c4Comment] 41 42 (Requester.user 2)
      = ([c4Comment], MutationOutcome.redirectToDetail 41) :=
  claim_C4 [c4Post] [c4Comment] 41 42 2 plainSubmission "z" c4Post c4Comment
    (by decide) (by decide) (by decide) (by decide)

/-- C5: a comment created on the path for post `k` by authenticated user
`uid` is stored with author `uid` and owning post `k`, whatever author or
post values the request body carries. -/
theorem claim_C5 (posts : List Post) (comments : List Comment)
    (k uid : Nat) (txt : String)
    (submittedAuthor submittedPost newId : Nat) (p : Post)
    (hp : posts.find? (fun q => q.id == k) = some p) :
    commentCreateAttempt posts comments k (Requester.user uid) txt
        submittedAuthor submittedPost newId
      = (comments ++ [{ id := newId, post := k, author := uid, text := txt }],
         MutationOutcome.redirectToDetail k) := by
  simp [commentCreateAttempt, hp]

/-- Post 5, owned by user 9, hosting the spec's comment-creation scenario. -/
def c5Post : Post :=
  { id := 5, author := 9, title := "t", text := "x", pub_date := 0,
    is_published := true, category := some catNews, location := none }

/-- C5 witness: the spec scenario — user 4 comments on post 5 while the
body claims author 3 and post 99; the stored comment has author 4, post 5. -/
theorem claim_C5_witness :
    commentCreateAttempt [c5Post] [] 5 (Requester.user 4) "hi" 3 99 7
      = ([{ id := 7, post := 5, author := 4, text := "hi" }],
         MutationOutcome.redirectToDetail 5) :=
  claim_C5 [c5Post] [] 5 4 "hi" 3 99 7 c5Post (by decide)

/-- C6: an unpublished category hides every post referencing it: the post
fails the public listing filter, is absent from the home feed and from any
other viewer's profile feed, the category's own feed is a not-found, and a
non-owner detail lookup reports not-found. -/
theorem claim_C6 (posts : List Post) (cats : List Category)
    (p : Post) (c : Category) (r v : Requester) (now : Int) (pid : Nat)
    (hcat : p.category = some c)
    (hunpub : c.is_published = false)
    (hr : requesterIsAuthor r p.author = false)
    (hp : posts.find? (fun q => q.id == pid) = some p)
    (hcats : ∀ cat ∈ cats, cat.slug = c.slug → cat.is_published = false) :
    publishedFilter p now = false ∧
    p ∉ homeFeed posts now ∧
    (v ≠ Requester.user p.author → p ∉ profileFeed posts p.author v now) ∧
    categoryFeed posts cats c.slug now = none ∧
    postDetailGetObject posts pid r now = DetailOutcome.notFound := by
  have hf : publishedFilter p now = false := by
    simp [publishedFilter, hcat, hunpub]
  refine ⟨hf, ?_, ?_, ?_, ?_⟩
  · intro hmem
    rw [homeFeed, List.mem_filter] at hmem
    rw [hf] at hmem
    exact Bool.false_ne_true hmem.2
  · intro hv hmem
    rw [profileFeed, if_neg hv, List.mem_filter, List.mem_filter] at hmem
    rw [hf] at hmem
    exact Bool.false_ne_true hmem.1.2
  · rw [categoryFeed]
    have hnone : cats.find? (fun x => x.slug == c.slug && x.is_published)
        = none := by
      rw [List.find?_eq_none]
      intro x hx
      simp only [Bool.and_eq_true, beq_iff_eq, not_and]
      intro hslug
      rw [hcats x hx hslug]
      simp
    rw [hnone]
  · cases hpub : p.is_published with
    | false => simp [postDetailGetObject, hp, hr, hpub]
    | true => simp [postDetailGetObject, hp, hr, hpub, hcat, hunpub]

/-- Post 61 references the unpublished category `catTravel` while being
itself published and past-dated. -/
def c6Post : Post :=
  { id := 61, author := 1, title := "t", text := "x", pub_date := 0,
    is_published := true, category := some catTravel, location := none }

/-- C6 witness: post 61 (published, past-dated, category "travel"
unpublished) is filtered out everywhere and its detail lookup by an
anonymous requester is a not-found. -/
theorem claim_C6_witness :
    publishedFilter c6Post 5 = false ∧
    c6Post ∉ homeFeed [c6Post] 5 ∧
    (Requester.anonymous ≠ Requester.user c6Post.author →
      c6Post ∉ profileFeed [c6Post] c6Post.author Requester.anonymous 5) ∧
    categoryFeed [c6Post] [catTravel] catTravel.slug 5 = none ∧
    postDetailGetObject [c6Post] 61 Requester.anonymous 5
      = DetailOutcome.notFound :=
  claim_C6 [c6Post] [catTravel] c6Post catTravel Requester.anonymous
    Requester.anonymous 5 61 (by decide) (by decide) (by decide) (by decide)
    (by decide)

/-- C7, as stated: every unauthenticated create, edit or delete attempt
would redirect to the login flow.  Refuted: an anonymous edit attempt on
the existing post 41 is redirected to that post's detail page (the
ownership check in the view's own `dispatch` runs before the login mixin),
which is not the login redirect. -/
theorem claim_C7_counterexample :
    postUpdateAttempt [c4Post] 41 Requester.anonymous plainSubmission
      = ([c4Post], MutationOutcome.redirectToDetail 41) ∧
    MutationOutcome.redirectToDetail 41 ≠ MutationOutcome.redirectToLogin := by
  decide

/-- C7 (amended): an unauthenticated create attempt (post or comment)
redirects to the login flow; an unauthenticated edit or delete attempt on
an EXISTING post or comment instead redirects to the relevant post's
detail page, because the ownership guard in the overridden `dispatch` runs
before the authentication check; in every case no data changes. -/
theorem claim_C7_amended (posts : List Post) (comments : List Comment)
    (pid cid newId : Nat) (s : PostSubmission) (txt t : String)
    (sa sp ct0 : Nat) (creationTime : Int) (post : Post) (c : Comment)
    (hp : posts.find? (fun q => q.id == pid) = some post)
    (hc : (comments.filter (fun x => x.post == pid)).find?
      (fun x => x.id == cid) = some c) :
    postCreateAttempt posts Requester.anonymous s newId creationTime
      = (posts, MutationOutcome.redirectToLogin) ∧
    commentCreateAttempt posts comments pid Requester.anonymous txt sa sp ct0
      = (comments, MutationOutcome.redirectToLogin) ∧
    postUpdateAttempt posts pid Requester.anonymous s
      = (posts, MutationOutcome.redirectToDetail pid) ∧
    postDeleteAttempt posts pid Requester.anonymous
      = (posts, MutationOutcome.redirectToDetail pid) ∧
    commentUpdateAttempt comments pid cid Requester.anonymous t
      = (comments, MutationOutcome.redirectToDetail pid) ∧
    commentDeleteAttempt comments pid cid Requester.anonymous
      = (comments, MutationOutcome.redirectToDetail pid) := by
  refine ⟨rfl, rfl, ?_, ?_, ?_, ?_⟩ <;>
    simp [postUpdateAttempt, postDeleteAttempt, commentUpdateAttempt,
      commentDeleteAttempt, hp, hc, requesterIsAuthor]

/-- C7 witness: with post 41 and comment 42 in the store, the anonymous
outcomes are as the amended claim states. -/
theorem claim_C7_witness :
    postCreateAttempt [c4Post] Requester.anonymous plainSubmission 8 0
      = ([c4Post], MutationOutcome.redirectToLogin) ∧
    commentCreateAttempt [c4Post] [c4Comment] 41 Requester.anonymous "z" 3 99 8
      = ([c4Comment], MutationOutcome.redirectToLogin) ∧
    postUpdateAttempt [c4Post] 41 Requester.anonymous plainSubmission
      = ([c4Post], MutationOutcome.redirectToDetail 41) ∧
    postDeleteAttempt [c4Post] 41 Requester.anonymous
      = ([c4Post], MutationOutcome.redirectToDetail 41) ∧
    commentUpdateAttempt [c4Comment] 41 42 Requester.anonymous "z"
      = ([c4Comment], MutationOutcome.redirectToDetail 41) ∧
    commentDeleteAttempt [c4Comment] 41 42 Requester.anonymous
      = ([c4Comment], MutationOutcome.redirectToDetail 41) :=
  claim_C7_amended [c4Post] [c4Comment] 41 42 8 plainSubmission "z" "z" 3 99 8
    0 c4Post c4Comment (by decide) (by decide)

/-- A post-creation submission asking for a future publish time (time 100,
while creation happens at time 10), published, in a published category. -/
def c8Submission : PostSubmission :=
  { title := "t", text := "x", pub_date := 100, category := some catNews,
    location := none, is_published := true }

/-- C8: the claim says the publish timestamp is author-controlled and may
be set in the future, hiding the post until the clock passes it.  Refuted
by the code: migration 0012 declares `pub_date` with `auto_now_add=True`
(directly contradicting the field's own help text about deferred future
publication and the `PostForm` that lists `pub_date` as an editable field),
so creating a post at time 10 with a submitted `pub_date` of 100 stores
`pub_date = 10` — and the post passes the public listing filter
immediately instead of staying hidden until time 100. -/
theorem claim_C8_bug :
    c8Submission.pub_date = 100 ∧
    (postCreateAttempt [] (Requester.user 1) c8Submission 7 10).1.map
      Post.pub_date = [10] ∧
    (postCreateAttempt [] (Requester.user 1) c8Submission 7 10).1.all
      (fun p => publishedFilter p 10) = true := by decide

/-- Post 91: published, past-dated, no category — its author is user 2. -/
def c9Post : Post :=
  { id := 91, author := 2, title := "t", text := "x", pub_date := 1,
    is_published := true, category := none, location := none }

/-- C9: the claim says the detail-view visibility check is total for posts
with no category.  Refuted by the code: for published post 91 with no
category, a non-author lookup reaches the unguarded attribute access
`post.category.is_published` and raises, an error outcome rather than
not-found or success. -/
theorem claim_C9_bug :
    postDetailGetObject [c9Post] 91 (Requester.user 9) 7
      = DetailOutcome.error := by decide

/-- C10: a comment addressed for edit or delete under a path whose post id
differs from its actual owning post is a not-found for every requester,
its own author included (ids are primary keys, hence the uniqueness
hypothesis). -/
theorem claim_C10 (comments : List Comment) (c : Comment) (pathPid : Nat)
    (r : Requester) (t : String)
    (hmem : c ∈ comments)
    (huniq : ∀ d ∈ comments, d.id = c.id → d = c)
    (hne : c.post ≠ pathPid) :
    commentUpdateAttempt comments pathPid c.id r t
      = (comments, MutationOutcome.notFound) ∧
    commentDeleteAttempt comments pathPid c.id r
      = (comments, MutationOutcome.notFound) := by
  have _hm : c ∈ comments := hmem
  have hfind : (comments.filter (fun x => x.post == pathPid)).find?
      (fun x => x.id == c.id) = none := by
    rw [List.find?_eq_none]
    intro x hx
    rw [List.mem_filter] at hx
    obtain ⟨hxm, hxp⟩ := hx
    simp only [beq_iff_eq] at hxp ⊢
    intro hid
    have hxc : x = c := huniq x hxm hid
    rw [hxc] at hxp
    exact hne hxp
  constructor <;> simp [commentUpdateAttempt, commentDeleteAttempt, hfind]

/-- Comment 101 belongs to post 3. -/
def c10Comment : Comment := { id := 101, post := 3, author := 6, text := "c" }

/-- C10 witness: comment 101 of post 3, addressed under post 4's path by
its own author, is a not-found for both edit and delete. -/
theorem claim_C10_witness :
    commentUpdateAttempt [c10Comment] 4 c10Comment.id (Requester.user 6) "z"
      = ([c10Comment], MutationOutcome.notFound) ∧
    commentDeleteAttempt [c10Comment] 4 c10Comment.id (Requester.user 6)
      = ([c10Comment], MutationOutcome.notFound) :=
  claim_C10 [c10Comment] c10Comment 4 (Requester.user 6) "z"
    (by decide) (by decide) (by decide)

end Blogicum
